import Mathlib

/-!
Verification development for the Bid-Writer repository.

Part 1 — Budget Engine (source: the budget calculation module,
`calculateBudget`).  JS numbers are modelled as exact rationals (ℚ);
`Math.round(n * 100) / 100` becomes `round` below.  A field that may be
absent or non-numeric (JS `undefined` / `parseFloat` → `NaN`) is modelled
as `Option ℚ` with `none` for the unparsable case; the JS idiom
`parseFloat(x) || d` (which also replaces an explicit 0 by the default,
since 0 is falsy) is `jsOr`.
-/

namespace Budget

/-- `Math.round(n * 100) / 100` from the source, on exact rationals.
`Math.round` is floor-of-(x + 1/2) (round half toward +∞). -/
def round (q : ℚ) : ℚ := ((⌊q * 100 + 1 / 2⌋ : ℤ) : ℚ) / 100

/-- `arr.reduce((a, b) => a + b, 0)` followed by `round`, from the source
helper `sum`. -/
def sum (l : List ℚ) : ℚ := round (l.foldl (· + ·) 0)

/-- JS `parseFloat(v) || d`: the default is used for a missing or
non-numeric field (`none`) and also for an explicit 0 (falsy). -/
def jsOr (v : Option ℚ) (d : ℚ) : ℚ :=
  match v with
  | none => d
  | some x => if x = 0 then d else x

/-- `DEFAULT_ON_COST_RATE = 0.25` from the source. -/
def DEFAULT_ON_COST_RATE : ℚ := 0.25

/-- Staff line item: numeric-ish fields as parsed by `parseFloat`
(`none` = missing / non-numeric), plus the remaining JS fields of the
object (labels etc.), which the spread `{...item}` copies verbatim. -/
structure StaffItem where
  salary : Option ℚ
  fte : Option ℚ
  months : Option ℚ
  onCostRate : Option ℚ
  extra : List (String × String)
deriving DecidableEq, Repr

/-- Travel line item. -/
structure TravelItem where
  costPerTrip : Option ℚ
  numTrips : Option ℚ
  extra : List (String × String)
deriving DecidableEq, Repr

/-- Equipment / consumables / other / subcontracting line item. -/
structure SimpleItem where
  cost : Option ℚ
  extra : List (String × String)
deriving DecidableEq, Repr

/-- Staff item as returned: the spread copies `salary`, `months`,
`onCostRate` and the extra fields; `fte` is overwritten with the parsed
and defaulted percentage; the computed fields are added. -/
structure StaffItemOut where
  salary : Option ℚ
  months : Option ℚ
  onCostRate : Option ℚ
  extra : List (String × String)
  fte : ℚ
  annualCost : ℚ
  monthlyCost : ℚ
  totalBase : ℚ
  onCosts : ℚ
  total : ℚ
deriving DecidableEq, Repr

/-- Travel item as returned: input fields copied, `total` added. -/
structure TravelItemOut where
  costPerTrip : Option ℚ
  numTrips : Option ℚ
  extra : List (String × String)
  total : ℚ
deriving DecidableEq, Repr

/-- Simple item as returned: input fields copied, `total` added. -/
structure SimpleItemOut where
  cost : Option ℚ
  extra : List (String × String)
  total : ℚ
deriving DecidableEq, Repr

/-- Input record of `calculateBudget`, with the destructuring defaults of
the source. -/
structure BudgetData where
  staff : List StaffItem := []
  travel : List TravelItem := []
  equipment : List SimpleItem := []
  consumables : List SimpleItem := []
  other : List SimpleItem := []
  subcontracting : List SimpleItem := []
  costModel : String := "fEC"
  fecRate : ℚ := 80
  overheadRate : ℚ := 25
  customRate : ℚ := 100
deriving DecidableEq, Repr

/-- One category of the result: the calculated items and their total. -/
structure CategoryOut (α : Type) where
  items : List α
  total : ℚ
deriving DecidableEq, Repr

/-- The `categories` part of the result. -/
structure Categories where
  staff : CategoryOut StaffItemOut
  travel : CategoryOut TravelItemOut
  equipment : CategoryOut SimpleItemOut
  consumables : CategoryOut SimpleItemOut
  other : CategoryOut SimpleItemOut
  subcontracting : CategoryOut SimpleItemOut
deriving DecidableEq, Repr

/-- The `summary` part of the result. -/
structure Summary where
  directCosts : ℚ
  indirectCosts : ℚ
  overheadRate : ℚ
  fullEconomicCost : ℚ
  costModel : String
  funderRate : ℚ
  funderContribution : ℚ
  institutionContribution : ℚ
deriving DecidableEq, Repr

/-- Full result of `calculateBudget`. -/
structure BudgetResult where
  categories : Categories
  summary : Summary
deriving DecidableEq, Repr

/-- The `staff.map(item => ...)` body of `calculateBudget`. -/
def calcStaffItem (item : StaffItem) : StaffItemOut :=
  let baseSalary := jsOr item.salary 0
  let fte := (jsOr item.fte 100) / 100
  let months := jsOr item.months 0
  let onCostRate := jsOr item.onCostRate DEFAULT_ON_COST_RATE
  let annualCost := baseSalary * fte
  let monthlyCost := annualCost / 12
  let totalBase := monthlyCost * months
  let onCosts := totalBase * onCostRate
  let totalWithOnCosts := totalBase + onCosts
  { salary := item.salary, months := item.months,
    onCostRate := item.onCostRate, extra := item.extra,
    fte := fte * 100, annualCost := annualCost, monthlyCost := monthlyCost,
    totalBase := round totalBase, onCosts := round onCosts,
    total := round totalWithOnCosts }

/-- The `travel.map(item => ...)` body. -/
def calcTravelItem (item : TravelItem) : TravelItemOut :=
  let costPerTrip := jsOr item.costPerTrip 0
  let numTrips := jsOr item.numTrips 1
  { costPerTrip := item.costPerTrip, numTrips := item.numTrips,
    extra := item.extra, total := round (costPerTrip * numTrips) }

/-- The map body shared by equipment, consumables, other and
subcontracting. -/
def calcSimpleItem (item : SimpleItem) : SimpleItemOut :=
  { cost := item.cost, extra := item.extra,
    total := round (jsOr item.cost 0) }

/-- Result of the cost-model `switch`. -/
structure CostSplit where
  rate : ℚ
  funderContribution : ℚ
  institutionContribution : ℚ
deriving DecidableEq, Repr

/-- The `switch (costModel)` block of `calculateBudget`: cases `'fEC'`,
`'full'`, `'custom'`, and a default identical to the `'fEC'` case. -/
def applyCostModel (fullEconomicCost : ℚ) (costModel : String)
    (fecRate customRate : ℚ) : CostSplit :=
  if costModel = "fEC" then
    let rate := fecRate / 100
    let funderContribution := round (fullEconomicCost * rate)
    { rate := rate, funderContribution := funderContribution,
      institutionContribution := round (fullEconomicCost - funderContribution) }
  else if costModel = "full" then
    { rate := 1, funderContribution := fullEconomicCost,
      institutionContribution := 0 }
  else if costModel = "custom" then
    let rate := customRate / 100
    let funderContribution := round (fullEconomicCost * rate)
    { rate := rate, funderContribution := funderContribution,
      institutionContribution := round (fullEconomicCost - funderContribution) }
  else
    let rate := fecRate / 100
    let funderContribution := round (fullEconomicCost * rate)
    { rate := rate, funderContribution := funderContribution,
      institutionContribution := round (fullEconomicCost - funderContribution) }

/-- `calculateBudget` from the source, line for line. -/
def calculateBudget (bd : BudgetData) : BudgetResult :=
  let staffCalc := bd.staff.map calcStaffItem
  let travelCalc := bd.travel.map calcTravelItem
  let equipmentCalc := bd.equipment.map calcSimpleItem
  let consumablesCalc := bd.consumables.map calcSimpleItem
  let otherCalc := bd.other.map calcSimpleItem
  let subCalc := bd.subcontracting.map calcSimpleItem
  let staffTotal := sum (staffCalc.map (·.total))
  let travelTotal := sum (travelCalc.map (·.total))
  let equipmentTotal := sum (equipmentCalc.map (·.total))
  let consumablesTotal := sum (consumablesCalc.map (·.total))
  let otherTotal := sum (otherCalc.map (·.total))
  let subTotal := sum (subCalc.map (·.total))
  let directCosts := staffTotal + travelTotal + equipmentTotal
    + consumablesTotal + otherTotal + subTotal
  let indirectCosts := round (directCosts * (bd.overheadRate / 100))
  let fullEconomicCost := round (directCosts + indirectCosts)
  let split := applyCostModel fullEconomicCost bd.costModel bd.fecRate bd.customRate
  { categories :=
    { staff := ⟨staffCalc, staffTotal⟩
      travel := ⟨travelCalc, travelTotal⟩
      equipment := ⟨equipmentCalc, equipmentTotal⟩
      consumables := ⟨consumablesCalc, consumablesTotal⟩
      other := ⟨otherCalc, otherTotal⟩
      subcontracting := ⟨subCalc, subTotal⟩ }
    summary :=
    { directCosts := directCosts, indirectCosts := indirectCosts,
      overheadRate := bd.overheadRate, fullEconomicCost := fullEconomicCost,
      costModel := bd.costModel, funderRate := round (split.rate * 100),
      funderContribution := split.funderContribution,
      institutionContribution := split.institutionContribution } }

/-! ### Rounding lemmas -/

/-- A rational that is a whole number of hundredths (a 2-decimal-place
value). -/
def IsCent (q : ℚ) : Prop := ∃ n : ℤ, q = (n : ℚ) / 100

theorem isCent_round (q : ℚ) : IsCent (round q) := ⟨⌊q * 100 + 1 / 2⌋, rfl⟩

theorem round_eq_self {q : ℚ} (h : IsCent q) : round q = q := by
  obtain ⟨n, rfl⟩ := h
  unfold round
  rw [div_mul_cancel₀ (b := (100 : ℚ)) (n : ℚ) (by norm_num)]
  have : (⌊(n : ℚ) + 1 / 2⌋ : ℤ) = n := by
    rw [Int.floor_int_add]
    norm_num
  rw [this]

theorem IsCent.add {a b : ℚ} (ha : IsCent a) (hb : IsCent b) : IsCent (a + b) := by
  obtain ⟨m, rfl⟩ := ha
  obtain ⟨n, rfl⟩ := hb
  exact ⟨m + n, by push_cast; ring⟩

theorem IsCent.sub {a b : ℚ} (ha : IsCent a) (hb : IsCent b) : IsCent (a - b) := by
  obtain ⟨m, rfl⟩ := ha
  obtain ⟨n, rfl⟩ := hb
  exact ⟨m - n, by push_cast; ring⟩

theorem isCent_zero : IsCent 0 := ⟨0, by norm_num⟩

theorem isCent_sum (l : List ℚ) : IsCent (sum l) := isCent_round _

/-- For the fEC-shaped branches of the switch:
`round(fec - round(fec * r)) + round(fec * r) = fec` when `fec` is a
2-decimal value. -/
theorem split_branch_sum {fec r : ℚ} (h : IsCent fec) :
    round (fec - round (fec * r)) + round (fec * r) = fec := by
  rw [round_eq_self (h.sub (isCent_round _))]
  ring

theorem applyCostModel_sum (fec : ℚ) (m : String) (fr cr : ℚ)
    (h : IsCent fec) :
    (applyCostModel fec m fr cr).institutionContribution
      + (applyCostModel fec m fr cr).funderContribution = fec := by
  unfold applyCostModel
  split_ifs <;> simp <;> exact split_branch_sum h

/-- C1 — For every input and every cost model, the summary satisfies
`institutionContribution + funderContribution = fullEconomicCost` (here
proved exactly, which implies equality to 2 decimal places). -/
theorem institution_plus_funder_eq_fec (bd : BudgetData) :
    (calculateBudget bd).summary.institutionContribution
      + (calculateBudget bd).summary.funderContribution
      = (calculateBudget bd).summary.fullEconomicCost := by
  unfold calculateBudget
  exact applyCostModel_sum _ _ _ _ (isCent_round _)

theorem round_round (q : ℚ) : round (round q) = round q :=
  round_eq_self (isCent_round q)

theorem applyCostModel_funder_isCent {fec : ℚ} (m : String) (fr cr : ℚ)
    (h : IsCent fec) : IsCent (applyCostModel fec m fr cr).funderContribution := by
  unfold applyCostModel
  split_ifs <;> simp <;> first
    | exact isCent_round _
    | exact h

theorem applyCostModel_institution_isCent (fec : ℚ) (m : String) (fr cr : ℚ) :
    IsCent (applyCostModel fec m fr cr).institutionContribution := by
  unfold applyCostModel
  split_ifs <;> simp <;> first
    | exact isCent_round _
    | exact ⟨0, by norm_num⟩

/-- C3 — Staff subtotal is
`round((salary × fte/100 / 12 × months) × (1 + onCostRate))` with the
source's parse-or-default semantics, and on the single staff item
{salary = 40000, fte = 100, months = 12, onCostRate = 0.25} under the
`fEC` model with `fecRate = 80` and `overheadRate = 25`, the outputs are
subtotal 50000, directCosts 50000, indirectCosts 12500,
fullEconomicCost 62500, funderContribution 50000 and
institutionContribution 12500. -/
theorem staff_subtotal_formula_and_example :
    (∀ item : StaffItem, (calcStaffItem item).total
      = round (jsOr item.salary 0 * (jsOr item.fte 100 / 100) / 12
          * jsOr item.months 0 * (1 + jsOr item.onCostRate 0.25)))
    ∧ ((calculateBudget
          { staff := [⟨some 40000, some 100, some 12, some 0.25, []⟩] }
        ).categories.staff.items.map (·.total) = [50000]
      ∧ (calculateBudget
          { staff := [⟨some 40000, some 100, some 12, some 0.25, []⟩] }
        ).summary.directCosts = 50000
      ∧ (calculateBudget
          { staff := [⟨some 40000, some 100, some 12, some 0.25, []⟩] }
        ).summary.indirectCosts = 12500
      ∧ (calculateBudget
          { staff := [⟨some 40000, some 100, some 12, some 0.25, []⟩] }
        ).summary.fullEconomicCost = 62500
      ∧ (calculateBudget
          { staff := [⟨some 40000, some 100, some 12, some 0.25, []⟩] }
        ).summary.funderContribution = 50000
      ∧ (calculateBudget
          { staff := [⟨some 40000, some 100, some 12, some 0.25, []⟩] }
        ).summary.institutionContribution = 12500) := by
  constructor
  · intro item
    simp only [calcStaffItem, DEFAULT_ON_COST_RATE]
    congr 1
    ring
  · norm_num [calculateBudget, calcStaffItem, calcTravelItem, calcSimpleItem,
      applyCostModel, sum, jsOr, round, DEFAULT_ON_COST_RATE]

/-- C5 — Rounding is applied at every aggregation step: every item
subtotal, every category total and every monetary summary figure is a
fixed point of the 2-decimal half-up rounding, and `directCosts` equals
the rounding of the sum of the six already-rounded category totals. -/
theorem rounding_at_each_step :
    (∀ item : StaffItem,
      round (calcStaffItem item).total = (calcStaffItem item).total)
    ∧ (∀ item : TravelItem,
      round (calcTravelItem item).total = (calcTravelItem item).total)
    ∧ (∀ item : SimpleItem,
      round (calcSimpleItem item).total = (calcSimpleItem item).total)
    ∧ ∀ bd : BudgetData,
      round (calculateBudget bd).categories.staff.total
          = (calculateBudget bd).categories.staff.total
      ∧ round (calculateBudget bd).categories.travel.total
          = (calculateBudget bd).categories.travel.total
      ∧ round (calculateBudget bd).categories.equipment.total
          = (calculateBudget bd).categories.equipment.total
      ∧ round (calculateBudget bd).categories.consumables.total
          = (calculateBudget bd).categories.consumables.total
      ∧ round (calculateBudget bd).categories.other.total
          = (calculateBudget bd).categories.other.total
      ∧ round (calculateBudget bd).categories.subcontracting.total
          = (calculateBudget bd).categories.subcontracting.total
      ∧ round (calculateBudget bd).summary.directCosts
          = (calculateBudget bd).summary.directCosts
      ∧ round (calculateBudget bd).summary.indirectCosts
          = (calculateBudget bd).summary.indirectCosts
      ∧ round (calculateBudget bd).summary.fullEconomicCost
          = (calculateBudget bd).summary.fullEconomicCost
      ∧ round (calculateBudget bd).summary.funderContribution
          = (calculateBudget bd).summary.funderContribution
      ∧ round (calculateBudget bd).summary.institutionContribution
          = (calculateBudget bd).summary.institutionContribution
      ∧ (calculateBudget bd).summary.directCosts
          = round ((calculateBudget bd).categories.staff.total
              + (calculateBudget bd).categories.travel.total
              + (calculateBudget bd).categories.equipment.total
              + (calculateBudget bd).categories.consumables.total
              + (calculateBudget bd).categories.other.total
              + (calculateBudget bd).categories.subcontracting.total) := by
  refine ⟨fun _ => round_round _, fun _ => round_round _, fun _ => round_round _, ?_⟩
  intro bd
  simp only [calculateBudget]
  have hdc : IsCent (sum (List.map (·.total) (bd.staff.map calcStaffItem))
      + sum (List.map (·.total) (bd.travel.map calcTravelItem))
      + sum (List.map (·.total) (bd.equipment.map calcSimpleItem))
      + sum (List.map (·.total) (bd.consumables.map calcSimpleItem))
      + sum (List.map (·.total) (bd.other.map calcSimpleItem))
      + sum (List.map (·.total) (bd.subcontracting.map calcSimpleItem))) :=
    ((((((isCent_sum _).add (isCent_sum _)).add (isCent_sum _)).add
      (isCent_sum _)).add (isCent_sum _)).add (isCent_sum _))
  refine ⟨round_round _, round_round _, round_round _, round_round _,
    round_round _, round_round _, round_eq_self hdc, round_round _, round_round _,
    round_eq_self (applyCostModel_funder_isCent _ _ _ (isCent_round _)),
    round_eq_self (applyCostModel_institution_isCent _ _ _ _),
    (round_eq_self hdc).symm⟩

/-- C8 (counterexample) — the output staff item does not preserve every
input field: an explicit `fte` of 0 is overwritten with the defaulted
percentage 100. -/
theorem staff_fte_field_not_preserved :
    (calculateBudget { staff := [⟨some 40000, some 0, some 12, none, []⟩] }
      ).categories.staff.items.map (·.fte) = [100]
    ∧ (⟨some 40000, some 0, some 12, none, []⟩ : StaffItem).fte = some 0 := by
  constructor
  · norm_num [calculateBudget, calcStaffItem, jsOr]
  · rfl

/-- C8 (amended) — the engine is pure and returns fresh derived records:
equipment/consumables/other/subcontracting items preserve every input
field and gain only `total`; travel items preserve every input field and
gain only `total`; staff items preserve `salary`, `months`, `onCostRate`
and all other copied fields, but their `fte` field is replaced by the
parsed-and-defaulted FTE percentage, and `annualCost`, `monthlyCost`,
`totalBase` and `onCosts` are added alongside the subtotal. -/
theorem item_fields_preservation :
    (∀ it : SimpleItem, (calcSimpleItem it).cost = it.cost
      ∧ (calcSimpleItem it).extra = it.extra)
    ∧ (∀ it : TravelItem, (calcTravelItem it).costPerTrip = it.costPerTrip
      ∧ (calcTravelItem it).numTrips = it.numTrips
      ∧ (calcTravelItem it).extra = it.extra)
    ∧ (∀ it : StaffItem, (calcStaffItem it).salary = it.salary
      ∧ (calcStaffItem it).months = it.months
      ∧ (calcStaffItem it).onCostRate = it.onCostRate
      ∧ (calcStaffItem it).extra = it.extra
      ∧ (calcStaffItem it).fte = jsOr it.fte 100) := by
  refine ⟨fun it => ⟨rfl, rfl⟩, fun it => ⟨rfl, rfl, rfl⟩,
    fun it => ⟨rfl, rfl, rfl, rfl, ?_⟩⟩
  simp only [calcStaffItem]
  field_simp

/-- C9 — the `parseFloat(x) || d` defaults fire on any falsy parsed
value: an explicit `fte` of 0 behaves as 100, an explicit `onCostRate`
of 0 behaves as 0.25, and an explicit `numTrips` of 0 behaves as 1. -/
theorem falsy_zero_triggers_defaults :
    (∀ it : StaffItem, (calcStaffItem { it with fte := some 0 }).total
      = (calcStaffItem { it with fte := some 100 }).total)
    ∧ (∀ it : StaffItem, (calcStaffItem { it with onCostRate := some 0 }).total
      = (calcStaffItem { it with onCostRate := some 0.25 }).total)
    ∧ (∀ it : TravelItem, (calcTravelItem { it with numTrips := some 0 }).total
      = (calcTravelItem { it with numTrips := some 1 }).total) := by
  refine ⟨fun it => ?_, fun it => ?_, fun it => ?_⟩ <;>
    norm_num [calcStaffItem, calcTravelItem, jsOr, DEFAULT_ON_COST_RATE]

end Budget

/-!
Part 2 — Compliance Checker (source: the funder-template module,
`runComplianceChecks`, `findSection`, `countWords`, `estimatePages`).

Strings are modelled as Lean `String`s (lists of characters).  The JS
regexes are modelled character by character:
* `\s` is `jsWs` (the JS whitespace class, restricted to its ASCII and
  no-break-space members, the only ones these checks meet);
* `\w` (for the `\b` word boundaries) is `isWordChar`;
* the heading pattern of `findSection` is the scanner `headingScan`
  below, with the same anchor, greedy/optional numbering group and lazy
  body with `(?=\n#+\s|$)` lookahead.  The greedy `#+` and the `\s*`
  right after it are modelled without backtracking, which coincides with
  the regex unless a section name itself starts with `#` or whitespace.
`toLocaleString` number interpolation in messages is rendered with the
plain decimal `fmtQ` / `toString` (thousands separators abstracted).
A JS value that may be `undefined`/`null` is an `Option`; the `sections`
object is an insertion-ordered association list.
-/

namespace Templates

/-- The JS `\s` class as used here. -/
def jsWs (c : Char) : Bool :=
  c == ' ' || c == '\t' || c == '\n' || c == '\r'
    || c == '\x0b' || c == '\x0c' || c == ' '

/-- JS `String.prototype.trim`. -/
def jsTrim (s : String) : String :=
  String.mk (((s.toList.dropWhile jsWs).reverse.dropWhile jsWs).reverse)

/-- Word counting step: walks the characters with an in-a-word flag; a
word is a maximal run of non-whitespace.  This is
`text.trim().split(/\s+/).filter(w => w.length > 0).length`. -/
def wordsAux : Bool → List Char → Nat
  | _, [] => 0
  | inw, c :: rest =>
    if jsWs c then wordsAux false rest
    else (if inw then 0 else 1) + wordsAux true rest

/-- `countWords` from the source (`!text` returns 0, which the empty
run-count also gives). -/
def countWords (text : String) : Nat := wordsAux false text.toList

/-- `estimatePages`: `Math.ceil(countWords(text) / 300)`. -/
def estimatePages (text : String) : Nat := (countWords text + 299) / 300

/-- JS `a.includes(b)` on strings, via character lists. -/
def listHasPre (sub l : List Char) : Bool :=
  match sub, l with
  | [], _ => true
  | _ :: _, [] => false
  | a :: as, b :: bs => a == b && listHasPre as bs

def listHasSub (sub l : List Char) : Bool :=
  match l with
  | [] => sub.isEmpty
  | _ :: bs => listHasPre sub l || listHasSub sub bs

def strIncludes (s sub : String) : Bool := listHasSub sub.toList s.toList

/-- JS `toLowerCase`, via the character list (the same ASCII case
mapping as `Char.toLower`). -/
def strLower (s : String) : String := String.mk (s.toList.map Char.toLower)

/-- JS `string || default` (empty string is falsy). -/
def jsOrStr (v : Option String) (d : String) : String :=
  match v with
  | none => d
  | some s => if s = "" then d else s

/-! ### The heading-pattern scan of `findSection`

Models the leftmost match of
`(?:^|\n)#+\s*(?:\d+\.?\s*)?NAME[\s\S]*?(?=\n#+\s|$)` (flag `i`),
returning `match[0]`. -/

def countPounds (l : List Char) : Nat := (l.takeWhile (· == '#')).length

def countWsRun (l : List Char) : Nat := (l.takeWhile jsWs).length

def countDigits (l : List Char) : Nat := (l.takeWhile Char.isDigit).length

/-- Case-insensitive literal prefix match (regex flag `i`). -/
def listHasPreCI : List Char → List Char → Bool
  | [], _ => true
  | _ :: _, [] => false
  | a :: as, b :: bs => (a.toLower == b.toLower) && listHasPreCI as bs

/-- The lookahead `\n#+\s` or end of input. -/
def isHeadBoundary (l : List Char) : Bool :=
  match l with
  | [] => true
  | c :: rest =>
    c == '\n' && countPounds rest != 0
      && (match rest.drop (countPounds rest) with
          | d :: _ => jsWs d
          | [] => false)

/-- The lazy `[\s\S]*?(?=\n#+\s|$)` body: shortest prefix whose suffix
satisfies the lookahead (the lookahead always holds at the end). -/
def takeUntilBoundary : List Char → List Char
  | [] => []
  | c :: rest =>
    if isHeadBoundary (c :: rest) then [] else c :: takeUntilBoundary rest

/-- `\s*` (greedy, with backtracking) followed by the name:
`acc + ws-consumed + name-length` on success. -/
def tryWsName (name l : List Char) (acc : Nat) : Nat → Option Nat
  | 0 => if listHasPreCI name l then some (acc + name.length) else none
  | k + 1 =>
    if listHasPreCI name (l.drop (k + 1)) then some (acc + (k + 1) + name.length)
    else tryWsName name l acc k

/-- `\.?` (greedy optional) then `\s*` then the name. -/
def tryDot (name l : List Char) (acc : Nat) : Option Nat :=
  match l with
  | '.' :: rest =>
    (match tryWsName name rest (acc + 1) (countWsRun rest) with
     | some n => some n
     | none => tryWsName name l acc (countWsRun l))
  | _ => tryWsName name l acc (countWsRun l)

/-- `\d+` (greedy, with backtracking: longest first) then `\.?\s*` then
the name. -/
def tryDigits (name l : List Char) : Nat → Option Nat
  | 0 => none
  | k + 1 =>
    match tryDot name (l.drop (k + 1)) (k + 1) with
    | some n => some n
    | none => tryDigits name l k

/-- The optional numbering group `(?:\d+\.?\s*)?` followed by the name:
the group (greedy) is tried first, then skipped. -/
def groupThenName (name l : List Char) : Option Nat :=
  match tryDigits name l (countDigits l) with
  | some n => some n
  | none => if listHasPreCI name l then some name.length else none

/-- Match `#+\s*(?:\d+\.?\s*)?NAME` plus the lazy body at the head of
`l` (just after the `^`/`\n` anchor); returns the matched characters. -/
def headMatch (name l : List Char) : Option (List Char) :=
  let p := countPounds l
  if p == 0 then none
  else
    let l1 := l.drop p
    let w := countWsRun l1
    let l2 := l1.drop w
    match groupThenName name l2 with
    | none => none
    | some g =>
      let l3 := l2.drop g
      some (l.take (p + w + g + (takeUntilBoundary l3).length))

/-- Try each later start position; a match there must begin with the
`\n` alternative of the anchor, and the `\n` is part of `match[0]`. -/
def tryFromNewline (name : List Char) : List Char → Option (List Char)
  | [] => none
  | c :: rest =>
    if c == '\n' then
      match headMatch name rest with
      | some s => some ('\n' :: s)
      | none => tryFromNewline name rest
    else tryFromNewline name rest

/-- Leftmost match of the heading pattern: position 0 via `^` first,
then every `\n` position in order. -/
def headingScan (name fullText : String) : Option String :=
  match headMatch name.toList fullText.toList with
  | some s => some (String.mk s)
  | none => (tryFromNewline name.toList fullText.toList).map String.mk

/-! ### findSection -/

/-- Tier (b)/(c) of `findSection`: the case-insensitive
either-direction substring match over the map keys (`Object.keys(...)
.find(...)`; a found but falsy — empty — key does not return), then the
heading scan (only when `fullText` is truthy). -/
def findSectionFallback (sections : List (String × String))
    (fullText : Option String) (sectionName : String) : Option String :=
  let tier3 : Option String :=
    match fullText with
    | none => none
    | some t => if t = "" then none else headingScan sectionName t
  match sections.find? (fun kv =>
      strIncludes (strLower kv.1) (strLower sectionName)
        || strIncludes (strLower sectionName) (strLower kv.1)) with
  | some kv => if kv.1 = "" then tier3 else some kv.2
  | none => tier3

/-- `findSection` from the source.  Tier (a) is the direct lookup, which
only returns a truthy (non-empty) value. -/
def findSection (sections : List (String × String))
    (fullText : Option String) (sectionName : String) : Option String :=
  match sections.find? (fun kv => kv.1 == sectionName) with
  | some kv =>
    if kv.2 = "" then findSectionFallback sections fullText sectionName
    else some kv.2
  | none => findSectionFallback sections fullText sectionName

/-! ### Findings and checks -/

/-- A compliance finding. -/
structure Finding where
  check : String
  status : String
  message : String
  advice : Option String
deriving DecidableEq, Repr

/-- The uniform result shape. -/
structure ComplianceResult where
  overall : String
  results : List Finding
deriving DecidableEq, Repr

/-- A required-section entry of a scheme (`none` models an absent
field; for the numeric limits an explicit 0 is falsy too and disables
the check, as in the source). -/
structure ReqSection where
  name : String
  required : Bool
  maxWords : Option ℚ
  maxPages : Option ℚ
deriving DecidableEq, Repr

/-- A funder scheme. -/
structure Scheme where
  maxAmount : Option ℚ
  minAmount : Option ℚ
  maxDuration : Option ℚ
  minDuration : Option ℚ
  sections : Option (List ReqSection)
  eligibility : Option String
deriving DecidableEq, Repr

/-- The funder template: `schemes` may be absent. -/
structure FunderData where
  schemes : Option (List Scheme)
deriving DecidableEq, Repr

/-- `funderData.schemes && funderData.schemes[schemeIndex]`. -/
def resolveScheme (funderData : FunderData) (schemeIndex : Nat) : Option Scheme :=
  match funderData.schemes with
  | none => none
  | some l => l[schemeIndex]?

/-- Decimal rendering used for the `toLocaleString` interpolations. -/
def fmtQ (q : ℚ) : String :=
  if q.den == 1 then toString q.num
  else toString q.num ++ "/" ++ toString q.den

/-- `Math.round` to an integer, for the percentage in the word-limit
warning message. -/
def jsRoundInt (q : ℚ) : ℤ := ⌊q + 1 / 2⌋

/-- Truthiness of a possibly-absent numeric field. -/
def truthyNum (v : Option ℚ) : Bool :=
  match v with
  | none => false
  | some x => x != 0

/-- The Budget Maximum block. -/
def checkBudgetMax (scheme : Scheme) (budget : ℚ) : List Finding :=
  match scheme.maxAmount with
  | none => []
  | some maxA =>
    if maxA = 0 then []
    else if budget > maxA then
      [{ check := "Budget Maximum", status := "fail",
         message := "Budget £" ++ fmtQ budget ++ " exceeds maximum £"
           ++ fmtQ maxA ++ ".",
         advice := some ("Reduce your budget to under £" ++ fmtQ maxA
           ++ " for this scheme.") }]
    else if budget > maxA * 0.95 then
      [{ check := "Budget Maximum", status := "warn",
         message := "Budget £" ++ fmtQ budget ++ " is within 5% of the £"
           ++ fmtQ maxA ++ " maximum.",
         advice := some "Consider whether you need budget headroom for adjustments." }]
    else
      [{ check := "Budget Maximum", status := "pass",
         message := "Budget £" ++ fmtQ budget ++ " is within the £"
           ++ fmtQ maxA ++ " limit.",
         advice := none }]

/-- The Budget Minimum block. -/
def checkBudgetMin (scheme : Scheme) (budget : ℚ) : List Finding :=
  match scheme.minAmount with
  | none => []
  | some minA =>
    if minA = 0 then []
    else if budget < minA ∧ budget > 0 then
      [{ check := "Budget Minimum", status := "fail",
         message := "Budget £" ++ fmtQ budget ++ " is below the minimum £"
           ++ fmtQ minA ++ ".",
         advice := some ("This scheme requires a minimum budget of £"
           ++ fmtQ minA ++ ".") }]
    else if budget ≥ minA then
      [{ check := "Budget Minimum", status := "pass",
         message := "Budget meets the minimum £" ++ fmtQ minA ++ " threshold.",
         advice := none }]
    else []

/-- The Duration (maximum) block. -/
def checkDurationMax (scheme : Scheme) (duration : ℚ) : List Finding :=
  match scheme.maxDuration with
  | none => []
  | some maxD =>
    if maxD = 0 then []
    else if duration > maxD then
      [{ check := "Duration", status := "fail",
         message := "Duration " ++ fmtQ duration ++ " months exceeds maximum "
           ++ fmtQ maxD ++ " months.",
         advice := some ("Reduce project duration to " ++ fmtQ maxD
           ++ " months or less.") }]
    else if duration > 0 then
      [{ check := "Duration", status := "pass",
         message := "Duration " ++ fmtQ duration ++ " months is within the "
           ++ fmtQ maxD ++ " month limit.",
         advice := none }]
    else []

/-- The Duration Minimum block. -/
def checkDurationMin (scheme : Scheme) (duration : ℚ) : List Finding :=
  match scheme.minDuration with
  | none => []
  | some minD =>
    if minD = 0 then []
    else if duration < minD ∧ duration > 0 then
      [{ check := "Duration Minimum", status := "fail",
         message := "Duration " ++ fmtQ duration
           ++ " months is below the minimum " ++ fmtQ minD ++ " months.",
         advice := some ("This scheme requires at least " ++ fmtQ minD
           ++ " months duration.") }]
    else []

/-- The loop body of the per-section checks; the `continue` after the
missing/too-short `fail` makes that finding the only one for the
section. -/
def checkSection (sections : List (String × String))
    (proposalText : Option String) (rs : ReqSection) : List Finding :=
  let sectionText := findSection sections proposalText rs.name
  let missingOrShort : Bool :=
    match sectionText with
    | none => true
    | some t => t == "" || decide ((jsTrim t).length < 50)
  if rs.required && missingOrShort then
    [{ check := "Section: " ++ rs.name, status := "fail",
       message := "Required section \"" ++ rs.name
         ++ "\" is missing or too short.",
       advice := some ("Add a substantive \"" ++ rs.name
         ++ "\" section to your proposal.") }]
  else
    (if rs.required then
      [{ check := "Section: " ++ rs.name ++ " (Present)", status := "pass",
         message := "Required section \"" ++ rs.name ++ "\" is present.",
         advice := none }]
     else [])
    ++ (match rs.maxWords, sectionText with
        | some mw, some t =>
          if mw = 0 ∨ t = "" then []
          else
            let wc := countWords t
            if (wc : ℚ) > mw then
              [{ check := "Section: " ++ rs.name ++ " (Word Limit)",
                 status := "fail",
                 message := "\"" ++ rs.name ++ "\" is " ++ toString wc
                   ++ " words (limit: " ++ fmtQ mw ++ ").",
                 advice := some ("Reduce by " ++ fmtQ ((wc : ℚ) - mw)
                   ++ " words. Current: " ++ toString wc ++ "/" ++ fmtQ mw ++ ".") }]
            else if (wc : ℚ) > mw * 0.9 then
              [{ check := "Section: " ++ rs.name ++ " (Word Limit)",
                 status := "warn",
                 message := "\"" ++ rs.name ++ "\" is " ++ toString wc ++ "/"
                   ++ fmtQ mw ++ " words ("
                   ++ toString (jsRoundInt ((wc : ℚ) / mw * 100)) ++ "%).",
                 advice := some "Close to the word limit. Leave some margin for final edits." }]
            else if wc > 0 then
              [{ check := "Section: " ++ rs.name ++ " (Word Limit)",
                 status := "pass",
                 message := "\"" ++ rs.name ++ "\" is " ++ toString wc ++ "/"
                   ++ fmtQ mw ++ " words.",
                 advice := none }]
            else []
        | _, _ => [])
    ++ (match rs.maxPages, sectionText with
        | some mp, some t =>
          if mp = 0 ∨ t = "" then []
          else
            let pages := estimatePages t
            if (pages : ℚ) > mp then
              [{ check := "Section: " ++ rs.name ++ " (Page Limit)",
                 status := "fail",
                 message := "\"" ++ rs.name ++ "\" is approximately "
                   ++ toString pages ++ " pages (limit: " ++ fmtQ mp ++ ").",
                 advice := some ("Estimated at ~300 words/page. Reduce content to fit within "
                   ++ fmtQ mp ++ " page(s).") }]
            else
              [{ check := "Section: " ++ rs.name ++ " (Page Limit)",
                 status := "pass",
                 message := "\"" ++ rs.name ++ "\" fits within " ++ fmtQ mp
                   ++ " page(s).",
                 advice := none }]
        | _, _ => [])

/-- The `if (scheme.sections)` loop (an array is truthy even when
empty). -/
def checkSections (scheme : Scheme) (sections : List (String × String))
    (proposalText : Option String) : List Finding :=
  match scheme.sections with
  | none => []
  | some secs => secs.flatMap (checkSection sections proposalText)

/-- `\w` for the `\b` boundaries: `[A-Za-z0-9_]`. -/
def isWordChar (c : Char) : Bool := c.isAlphanum || c == '_'

def headIsWord (l : List Char) : Bool :=
  match l with
  | [] => false
  | c :: _ => isWordChar c

/-- Count of `/\bI\b/g` matches (case-sensitive). -/
def countWordIAux : Bool → List Char → Nat
  | _, [] => 0
  | prevW, c :: rest =>
    (if c == 'I' && !prevW && !headIsWord rest then 1 else 0)
      + countWordIAux (isWordChar c) rest

def countWordI (text : String) : Nat := countWordIAux false text.toList

/-- Count of case-insensitive whole-word occurrences of one (lowercase)
term in an already lowercased character list. -/
def countTermAux (term : List Char) : Bool → List Char → Nat
  | _, [] => 0
  | prevW, c :: rest =>
    (if !prevW && listHasPre term (c :: rest)
        && !headIsWord ((c :: rest).drop term.length) then 1 else 0)
      + countTermAux term (isWordChar c) rest

def vagueTerms : List String :=
  ["very", "quite", "somewhat", "fairly", "rather", "extremely"]

/-- The combined `\bterm\b` (flags `gi`) count over the vague-term
list. -/
def vagueCount (text : String) : Nat :=
  vagueTerms.foldl
    (fun count term => count + countTermAux term.toList false (strLower text).toList) 0

/-- The `if (fullText)` aggregate text block: total word count, then the
first-person and vague-language warnings. -/
def textChecks (fullText : String) : List Finding :=
  if fullText = "" then []
  else
    { check := "Total Word Count", status := "pass",
      message := "Total proposal text: " ++ toString (countWords fullText)
        ++ " words.",
      advice := none } ::
    ((if countWordI fullText > 10 then
        [{ check := "First Person Usage", status := "warn",
           message := "Found " ++ toString (countWordI fullText)
             ++ " instances of \"I\". Most funders prefer \"we\" or passive voice.",
           advice := some "Consider using \"we\" for team applications or passive constructions." }]
      else [])
    ++ (if vagueCount fullText > 15 then
        [{ check := "Vague Language", status := "warn",
           message := "Found " ++ toString (vagueCount fullText)
             ++ " instances of vague qualifiers (very, quite, somewhat, etc.).",
           advice := some "Replace vague qualifiers with specific, evidence-based language." }]
      else []))

/-- The eligibility note (`if (scheme.eligibility)`; the empty string is
falsy). -/
def eligibilityNote (scheme : Scheme) : List Finding :=
  match scheme.eligibility with
  | none => []
  | some e =>
    if e = "" then []
    else
      [{ check := "Eligibility", status := "warn",
         message := "Eligibility requirement: " ++ e,
         advice := some "Ensure you meet this eligibility criterion before submitting." }]

def attachmentNames : List String :=
  ["CV", "Letter of Support", "Ethics Approval", "Data Management Plan"]

/-- The required-attachments reminder. -/
def attachmentsNote (scheme : Scheme) : List Finding :=
  match scheme.sections with
  | none => []
  | some secs =>
    let attachmentSections := secs.filter (fun s =>
      attachmentNames.any (fun a => strIncludes (strLower s.name) (strLower a)))
    if attachmentSections.length > 0 then
      [{ check := "Required Attachments", status := "warn",
         message := "Don\x27t forget: "
           ++ String.intercalate ", " (attachmentSections.map (·.name)),
         advice := some "Ensure all required attachments are prepared before submission." }]
    else []

/-- Overall severity: `fail` dominates `warn` dominates `pass`. -/
def overallOf (results : List Finding) : String :=
  if results.any (fun r => r.status == "fail") then "fail"
  else if results.any (fun r => r.status == "warn") then "warn"
  else "pass"

/-- `runComplianceChecks` from the source.  `budget` and `duration`
arrive as numbers, so their `parseFloat(x) || 0` is the identity. -/
def runComplianceChecks (proposalText : Option String)
    (sections : List (String × String)) (funderData : FunderData)
    (schemeIndex : Nat) (budget duration : ℚ) : ComplianceResult :=
  match resolveScheme funderData schemeIndex with
  | none =>
    { overall := "fail",
      results :=
        [{ check := "Scheme Selection", status := "fail",
           message := "No valid scheme selected for compliance checking.",
           advice := some "Select a specific grant scheme from the funder dropdown." }] }
  | some scheme =>
    let fullText := jsOrStr proposalText
      (String.intercalate "\n" (sections.map (·.2)))
    let results :=
      checkBudgetMax scheme budget
      ++ checkBudgetMin scheme budget
      ++ checkDurationMax scheme duration
      ++ checkDurationMin scheme duration
      ++ checkSections scheme sections proposalText
      ++ textChecks fullText
      ++ eligibilityNote scheme
      ++ attachmentsNote scheme
    { overall := overallOf results, results := results }

/-! ### Component lemmas -/

theorem checkBudgetMax_none {s : Scheme} (b : ℚ) (h : s.maxAmount = none) :
    checkBudgetMax s b = [] := by simp [checkBudgetMax, h]

theorem checkBudgetMin_none {s : Scheme} (b : ℚ) (h : s.minAmount = none) :
    checkBudgetMin s b = [] := by simp [checkBudgetMin, h]

theorem checkDurationMax_none {s : Scheme} (d : ℚ) (h : s.maxDuration = none) :
    checkDurationMax s d = [] := by simp [checkDurationMax, h]

theorem checkDurationMin_none {s : Scheme} (d : ℚ) (h : s.minDuration = none) :
    checkDurationMin s d = [] := by simp [checkDurationMin, h]

theorem checkSections_none {s : Scheme} (secs : List (String × String))
    (pt : Option String) (h : s.sections = none) :
    checkSections s secs pt = [] := by simp [checkSections, h]

theorem textChecks_empty : textChecks "" = [] := by simp [textChecks]

theorem eligibilityNote_none {s : Scheme} (h : s.eligibility = none) :
    eligibilityNote s = [] := by simp [eligibilityNote, h]

theorem attachmentsNote_none {s : Scheme} (h : s.sections = none) :
    attachmentsNote s = [] := by simp [attachmentsNote, h]

theorem overallOf_nil : overallOf [] = "pass" := by simp [overallOf]

theorem intercalate_nl_nil : String.intercalate "\n" ([] : List String) = "" := rfl

theorem length_dropWhile_le (p : Char → Bool) (l : List Char) :
    (l.dropWhile p).length ≤ l.length := by
  induction l with
  | nil => simp
  | cons c rest ih =>
    cases h : p c
    · simp [List.dropWhile_cons, h]
    · simp only [List.dropWhile_cons, h, if_pos]
      exact le_trans ih (Nat.le_succ _)

theorem jsTrim_length_le (s : String) : (jsTrim s).length ≤ s.length := by
  have h1 : ((s.toList.dropWhile jsWs).reverse.dropWhile jsWs).reverse.length
      ≤ s.toList.length := by
    rw [List.length_reverse]
    calc ((s.toList.dropWhile jsWs).reverse.dropWhile jsWs).length
        ≤ (s.toList.dropWhile jsWs).reverse.length := length_dropWhile_le _ _
      _ = (s.toList.dropWhile jsWs).length := List.length_reverse _
      _ ≤ s.toList.length := length_dropWhile_le _ _
  exact h1

/-! ### Claim theorems -/

/-- C2 — When no scheme is resolvable (no `schemes` array, or no entry
at `schemeIndex`), the run short-circuits to exactly
`{overall: fail, results: [the one Scheme Selection fail finding]}`;
no other check contributes. -/
theorem no_scheme_short_circuit (proposalText : Option String)
    (sections : List (String × String)) (funderData : FunderData)
    (schemeIndex : Nat) (budget duration : ℚ)
    (h : funderData.schemes = none
      ∨ ∃ l, funderData.schemes = some l ∧ l.length ≤ schemeIndex) :
    runComplianceChecks proposalText sections funderData schemeIndex budget duration
      = ⟨"fail", [⟨"Scheme Selection", "fail",
          "No valid scheme selected for compliance checking.",
          some "Select a specific grant scheme from the funder dropdown."⟩]⟩ := by
  have hres : resolveScheme funderData schemeIndex = none := by
    rcases h with h | ⟨l, hl, hlen⟩
    · simp [resolveScheme, h]
    · simp [resolveScheme, hl, List.getElem?_eq_none hlen]
  simp [runComplianceChecks, hres]

theorem no_scheme_short_circuit_witness :
    runComplianceChecks none [] ⟨none⟩ 0 0 0
      = ⟨"fail", [⟨"Scheme Selection", "fail",
          "No valid scheme selected for compliance checking.",
          some "Select a specific grant scheme from the funder dropdown."⟩]⟩ :=
  no_scheme_short_circuit none [] ⟨none⟩ 0 0 0 (Or.inl rfl)

/-- C4 — With a declared (truthy) `maxAmount`, the Budget Maximum block
emits exactly one finding, `fail` above the maximum, `warn` above 95% of
it, `pass` otherwise; and the full run on a scheme with
`maxAmount = 100000` gives exactly one Budget Maximum finding — `fail`
at 100001, `warn` at 96000, `pass` at 50000. -/
theorem budget_maximum_single_finding :
    (∀ (s : Scheme) (m b : ℚ), s.maxAmount = some m → m ≠ 0 →
      (checkBudgetMax s b).map (fun f => (f.check, f.status))
        = [("Budget Maximum",
            if b > m then "fail" else if b > m * 0.95 then "warn" else "pass")])
    ∧ ((runComplianceChecks none []
          ⟨some [⟨some 100000, none, none, none, none, none⟩]⟩ 0 100001 0).results.map
          (fun f => (f.check, f.status)) = [("Budget Maximum", "fail")])
    ∧ ((runComplianceChecks none []
          ⟨some [⟨some 100000, none, none, none, none, none⟩]⟩ 0 96000 0).results.map
          (fun f => (f.check, f.status)) = [("Budget Maximum", "warn")])
    ∧ ((runComplianceChecks none []
          ⟨some [⟨some 100000, none, none, none, none, none⟩]⟩ 0 50000 0).results.map
          (fun f => (f.check, f.status)) = [("Budget Maximum", "pass")]) := by
  constructor
  · intro s m b h hm
    simp only [checkBudgetMax, h]
    split_ifs <;> simp_all
  · refine ⟨?_, ?_, ?_⟩ <;>
      norm_num [runComplianceChecks, resolveScheme, checkBudgetMax,
        checkBudgetMin_none, checkDurationMax_none, checkDurationMin_none,
        checkSections_none, intercalate_nl_nil, textChecks, jsOrStr,
        eligibilityNote_none, attachmentsNote_none]

theorem budget_maximum_single_finding_witness :
    (checkBudgetMax ⟨some 100000, none, none, none, none, none⟩ 50000).map
        (fun f => (f.check, f.status))
      = [("Budget Maximum",
          if (50000 : ℚ) > 100000 then "fail"
          else if (50000 : ℚ) > 100000 * 0.95 then "warn" else "pass")] :=
  budget_maximum_single_finding.1 ⟨some 100000, none, none, none, none, none⟩
    100000 50000 rfl (by norm_num)

/-- C6 — A required section whose text cannot be resolved, or resolves
to under 50 characters, contributes exactly one `fail` finding to the
per-section loop, and no word-limit or page-limit finding. -/
theorem missing_required_section_single_fail
    (sections : List (String × String)) (proposalText : Option String)
    (rs : ReqSection) (hreq : rs.required = true)
    (h : findSection sections proposalText rs.name = none
      ∨ ∃ t, findSection sections proposalText rs.name = some t ∧ t.length < 50) :
    checkSection sections proposalText rs
      = [⟨"Section: " ++ rs.name, "fail",
          "Required section \"" ++ rs.name ++ "\" is missing or too short.",
          some ("Add a substantive \"" ++ rs.name ++ "\" section to your proposal.")⟩] := by
  rcases h with h | ⟨t, ht, hlen⟩
  · simp [checkSection, h, hreq]
  · have htrim : (jsTrim t).length < 50 := lt_of_le_of_lt (jsTrim_length_le t) hlen
    simp [checkSection, ht, hreq, htrim]

theorem missing_required_section_single_fail_witness :
    checkSection [] none ⟨"Case for Support", true, none, none⟩
      = [⟨"Section: " ++ "Case for Support", "fail",
          "Required section \"" ++ "Case for Support" ++ "\" is missing or too short.",
          some ("Add a substantive \"" ++ "Case for Support"
            ++ "\" section to your proposal.")⟩] :=
  missing_required_section_single_fail [] none ⟨"Case for Support", true, none, none⟩
    rfl (Or.inl rfl)

/-- C7 (counterexample) — with a resolvable scheme but an empty
proposal text and no section values, the run emits no Total Word Count
finding at all: the aggregate text block is skipped when the derived
full text is empty. -/
theorem total_word_count_not_always_emitted :
    ((runComplianceChecks none []
        ⟨some [⟨none, none, none, none, none, none⟩]⟩ 0 0 0).results.filter
        (fun f => f.check == "Total Word Count")) = [] := by
  have hrun : runComplianceChecks none []
      ⟨some [⟨none, none, none, none, none, none⟩]⟩ 0 0 0 = ⟨"pass", []⟩ := by
    simp [runComplianceChecks, resolveScheme, checkBudgetMax_none,
      checkBudgetMin_none, checkDurationMax_none, checkDurationMin_none,
      checkSections_none, intercalate_nl_nil, textChecks, jsOrStr,
      eligibilityNote_none, attachmentsNote_none, overallOf]
  rw [hrun]
  rfl

/-- C7 (amended) — after the scheme-validity step passes, the aggregate
text checks emit the `pass` total-word-count finding whenever the
derived full text (the proposal text, or the newline-joined section
values when no truthy full text is supplied) is non-empty; when it is
empty the block is skipped. -/
theorem total_word_count_when_text_nonempty (proposalText : Option String)
    (sections : List (String × String)) (funderData : FunderData)
    (schemeIndex : Nat) (budget duration : ℚ) (s : Scheme)
    (h : resolveScheme funderData schemeIndex = some s)
    (hne : jsOrStr proposalText
      (String.intercalate "\n" (sections.map (·.2))) ≠ "") :
    (⟨"Total Word Count", "pass",
      "Total proposal text: "
        ++ toString (countWords (jsOrStr proposalText
            (String.intercalate "\n" (sections.map (·.2)))))
        ++ " words.", none⟩ : Finding)
      ∈ (runComplianceChecks proposalText sections funderData schemeIndex
          budget duration).results := by
  simp only [runComplianceChecks, h]
  refine List.mem_append_left _ (List.mem_append_left _ (List.mem_append_right _ ?_))
  simp [textChecks, hne]

theorem total_word_count_when_text_nonempty_witness :
    (⟨"Total Word Count", "pass",
      "Total proposal text: "
        ++ toString (countWords (jsOrStr (some "hello world")
            (String.intercalate "\n" (([] : List (String × String)).map (·.2)))))
        ++ " words.", none⟩ : Finding)
      ∈ (runComplianceChecks (some "hello world") []
          ⟨some [⟨none, none, none, none, none, none⟩]⟩ 0 0 0).results :=
  total_word_count_when_text_nonempty (some "hello world") []
    ⟨some [⟨none, none, none, none, none, none⟩]⟩ 0 0 0
    ⟨none, none, none, none, none, none⟩ rfl (by decide)

/-- C10 — A resolvable scheme that declares none of the optional fields,
run with no proposal text and no section values, yields
`{overall: pass, results: []}`: an overall `pass` can mean that no check
produced any finding. -/
theorem empty_scheme_overall_pass (funderData : FunderData) (schemeIndex : Nat)
    (budget duration : ℚ) (s : Scheme)
    (h : resolveScheme funderData schemeIndex = some s)
    (h1 : s.maxAmount = none) (h2 : s.minAmount = none)
    (h3 : s.maxDuration = none) (h4 : s.minDuration = none)
    (h5 : s.sections = none) (h6 : s.eligibility = none) :
    runComplianceChecks none [] funderData schemeIndex budget duration
      = ⟨"pass", []⟩ := by
  simp [runComplianceChecks, h, checkBudgetMax_none _ h1, checkBudgetMin_none _ h2,
    checkDurationMax_none _ h3, checkDurationMin_none _ h4,
    checkSections_none _ _ h5, intercalate_nl_nil, textChecks, jsOrStr,
    eligibilityNote_none h6, attachmentsNote_none h5, overallOf]

theorem empty_scheme_overall_pass_witness :
    runComplianceChecks none [] ⟨some [⟨none, none, none, none, none, none⟩]⟩ 0 0 0
      = ⟨"pass", []⟩ :=
  empty_scheme_overall_pass ⟨some [⟨none, none, none, none, none, none⟩]⟩ 0 0 0
    ⟨none, none, none, none, none, none⟩ rfl rfl rfl rfl rfl rfl rfl

end Templates
